import Mathlib

/-!
Verification of the OAuth token lifecycle of the Basecamp MCP server.

Shallow embedding of `token_storage.py` (the token store), the refresh
orchestration `ensure_authenticated` of `auth_manager.py` (which calls
`BasecampOAuth.refresh_token` of `basecamp_oauth.py`), and the alternative
refresh orchestration `refresh_oauth_token` of `mcp_server.py`.

Modelling conventions:
- Timestamps are integer seconds; `datetime.now()` becomes an explicit `now`
  parameter, `isoformat`/`fromisoformat` are identities, and
  `timedelta(minutes=5)` is `300`.
- The on-disk token file is a `Storage` value: the file may be absent
  (`open` raises `FileNotFoundError`), may hold invalid JSON
  (`json.load` raises `JSONDecodeError`), or may hold a JSON document whose
  relevant content is its optional `basecamp` entry.  Other top-level keys
  are never read by any operation and are not modelled.  `Storage` covers
  exactly the file states on which `_read_tokens` returns normally (its two
  `except` clauses included); the file states on which `_read_tokens`
  raises to its caller — a file that exists but cannot be opened
  (`PermissionError`) and a file whose bytes are not decodable UTF-8
  (`UnicodeDecodeError`) — are modelled separately by `FileState` and the
  fallible reader `readTokensExc`.
- Python truthiness on optional strings and optional ints is made explicit
  (`None`, the empty string and `0` are falsy).
- The network is a parameter: the outcome of the single
  `requests.post` to the token endpoint is passed in as an `HttpOutcome`.
-/

namespace BasecampMCP

/-- Python truthiness of an optional string: `None` and `""` are falsy. -/
def truthyStr : Option String → Bool
  | none => false
  | some s => !(s == "")

/-- Python truthiness of an optional int: `None` and `0` are falsy. -/
def truthyInt : Option Int → Bool
  | none => false
  | some n => !(n == 0)

/-- The record stored under the `basecamp` key of the token file, as written
by `store_token`.  Every field is optional: `store_token` writes `None` for
the optional arguments it did not receive, and a hand-edited file may omit
fields. -/
structure Credential where
  access_token : Option String
  refresh_token : Option String
  account_id : Option String
  expires_at : Option Int
  updated_at : Option Int
deriving DecidableEq

/-- The state of the token file `oauth_tokens.json`, restricted to the
states on which `_read_tokens` returns normally (see `FileState` for the
states on which it raises). -/
inductive Storage where
  /-- The file does not exist (`open` raises `FileNotFoundError`). -/
  | absent : Storage
  /-- The file exists and decodes as UTF-8 but is not valid JSON
  (`json.load` raises `JSONDecodeError`). -/
  | corrupt : Storage
  /-- The file holds a JSON document; `basecamp` is its optional
  `basecamp` entry. -/
  | data (basecamp : Option Credential) : Storage
deriving DecidableEq

/-- `_read_tokens` followed by `.get('basecamp')`: both exception branches
of `_read_tokens` return the empty dict, whose `basecamp` entry is absent. -/
def readTokensBasecamp : Storage → Option Credential
  | Storage.absent => none
  | Storage.corrupt => none
  | Storage.data b => b

/-- `get_token`: returns the `basecamp` entry of the stored tokens. -/
def getToken (st : Storage) : Option Credential :=
  readTokensBasecamp st

/-- The Python exceptions `_read_tokens` can raise to its caller: its
`except` clauses name only `FileNotFoundError` and `json.JSONDecodeError`,
so these two propagate out of `get_token`. -/
inductive ReadError where
  /-- `open` raises `PermissionError` on an existing but unreadable file. -/
  | permissionError : ReadError
  /-- `json.load` raises `UnicodeDecodeError` when the file's bytes are not
  decodable UTF-8 (contents that are in particular not valid JSON);
  `UnicodeDecodeError` is not a subclass of `json.JSONDecodeError`. -/
  | unicodeDecodeError : ReadError
deriving DecidableEq

/-- The state of the token file `oauth_tokens.json`, refined beyond
`Storage` to distinguish the error paths `_read_tokens` does not catch. -/
inductive FileState where
  /-- The file does not exist (`open` raises `FileNotFoundError`,
  caught). -/
  | missing : FileState
  /-- The file decodes as UTF-8 but is not valid JSON (`json.load` raises
  `JSONDecodeError`, caught). -/
  | invalidJson : FileState
  /-- The file's bytes are not decodable UTF-8 (`json.load` raises
  `UnicodeDecodeError`, uncaught). -/
  | notUtf8 : FileState
  /-- The file exists but cannot be opened (`open` raises
  `PermissionError`, uncaught). -/
  | unreadable : FileState
  /-- The file holds a JSON document; `basecamp` is its optional
  `basecamp` entry. -/
  | wellFormed (basecamp : Option Credential) : FileState
deriving DecidableEq

/-- `_read_tokens` followed by `.get('basecamp')` over the refined file
states, with its exception behaviour explicit: the two caught exceptions
collapse to the empty dict (whose `basecamp` entry is absent), while
`PermissionError` and `UnicodeDecodeError` propagate. -/
def readTokensExc : FileState → Except ReadError (Option Credential)
  | FileState.missing => Except.ok none
  | FileState.invalidJson => Except.ok none
  | FileState.notUtf8 => Except.error ReadError.unicodeDecodeError
  | FileState.unreadable => Except.error ReadError.permissionError
  | FileState.wellFormed b => Except.ok b

/-- `get_token` over the refined file states: returns the `basecamp` entry
of the tokens read, or propagates the uncaught read error. -/
def getTokenExc (fs : FileState) : Except ReadError (Option Credential) :=
  readTokensExc fs

/-- The `expires_at` computed by `store_token`: `now + expires_in` when
`expires_in` is truthy (present and nonzero), otherwise unset, from
`if expires_in: expires_at = datetime.now() + timedelta(seconds=expires_in)`. -/
def computeExpiresAt (now : Int) (expires_in : Option Int) : Option Int :=
  match expires_in with
  | none => none
  | some n => if n == 0 then none else some (now + n)

/-- `store_token(access_token, refresh_token, expires_in, account_id)`:
returns `False` without writing when `access_token` is falsy, otherwise
replaces the `basecamp` entry with the new credential (expiry computed by
`computeExpiresAt`, `updated_at := now`) and returns `True`. -/
def storeToken (st : Storage) (now : Int) (access_token : Option String)
    (refresh_token : Option String) (expires_in : Option Int)
    (account_id : Option String) : Bool × Storage :=
  if truthyStr access_token = false then
    (false, st)
  else
    (true, Storage.data (some
      { access_token := access_token
        refresh_token := refresh_token
        account_id := account_id
        expires_at := computeExpiresAt now expires_in
        updated_at := some now }))

/-- `is_token_expired`: true when no `basecamp` entry is stored or it has no
`expires_at`, otherwise `now > expires_at - 5 minutes`. -/
def isTokenExpired (st : Storage) (now : Int) : Bool :=
  match readTokensBasecamp st with
  | none => true
  | some td =>
    match td.expires_at with
    | none => true
    | some e => decide (now > e - 300)

/-- `clear_tokens`: removes the token file if it exists and returns `True`. -/
def clearTokens (_st : Storage) : Bool × Storage :=
  (true, Storage.absent)

/-- The JSON body of a successful (HTTP 200) token-endpoint response, as
consumed by the refresh orchestrations: each field read with `.get`. -/
structure RefreshResponse where
  access_token : Option String
  refresh_token : Option String
  expires_in : Option Int
deriving DecidableEq

/-- Outcome of the one `requests.post` to the token endpoint. -/
inductive HttpOutcome where
  /-- `status_code == 200`; carries the parsed JSON body. -/
  | ok (resp : RefreshResponse) : HttpOutcome
  /-- `status_code != 200`; carries status and body
  (`BasecampOAuth.refresh_token` raises, `refresh_oauth_token` logs and
  returns `None`). -/
  | httpError (status : Nat) (body : String) : HttpOutcome
  /-- the request itself raised (connection error, timeout, bad JSON). -/
  | transportError : HttpOutcome
deriving DecidableEq

/-- Python `x or y` on optional strings: `x` when truthy, else `y`. -/
def orTruthy (a b : Option String) : Option String :=
  if truthyStr a then a else b

/-- Result of `ensure_authenticated`: the returned bool, the token file
afterwards, and whether the network refresh request was issued. -/
structure AuthResult where
  ok : Bool
  store : Storage
  networkCalled : Bool
deriving DecidableEq

/-- `auth_manager.ensure_authenticated`, with the token file, the clock, the
availability of the OAuth client configuration (`BasecampOAuth()` raises
`ValueError` before any network traffic when client id/secret/redirect
URI/user agent are not all set) and the token-endpoint outcome as explicit
parameters. -/
def ensureAuthenticated (st : Storage) (now : Int) (configOk : Bool)
    (exch : HttpOutcome) : AuthResult :=
  match readTokensBasecamp st with
  | none => { ok := false, store := st, networkCalled := false }
  | some td =>
    if truthyStr td.access_token = false then
      { ok := false, store := st, networkCalled := false }
    else if isTokenExpired st now = false then
      { ok := true, store := st, networkCalled := false }
    else if truthyStr td.refresh_token = false then
      { ok := false, store := st, networkCalled := false }
    else if configOk = false then
      { ok := false, store := st, networkCalled := false }
    else
      match exch with
      | HttpOutcome.httpError _ _ =>
        { ok := false, store := st, networkCalled := true }
      | HttpOutcome.transportError =>
        { ok := false, store := st, networkCalled := true }
      | HttpOutcome.ok resp =>
        let newRefresh := orTruthy resp.refresh_token td.refresh_token
        let stored := storeToken st now resp.access_token newRefresh
          resp.expires_in td.account_id
        { ok := true, store := stored.2, networkCalled := true }

/-- Result of `mcp_server.refresh_oauth_token`: the returned value (the new
access token or `None`), the token file afterwards, and whether the network
refresh request was issued. -/
structure McpRefreshResult where
  returned : Option String
  store : Storage
  networkCalled : Bool
deriving DecidableEq

/-- `mcp_server.refresh_oauth_token`, with the token file, the clock, the
`BASECAMP_ACCOUNT_ID` environment value and the token-endpoint outcome as
explicit parameters.  Unlike `ensure_authenticated` it checks neither local
expiry nor the stored access token, and it persists the environment's
account id rather than the stored one. -/
def refreshOauthToken (st : Storage) (now : Int) (envAccountId : Option String)
    (exch : HttpOutcome) : McpRefreshResult :=
  match readTokensBasecamp st with
  | none => { returned := none, store := st, networkCalled := false }
  | some td =>
    if truthyStr td.refresh_token = false then
      { returned := none, store := st, networkCalled := false }
    else
      match exch with
      | HttpOutcome.httpError _ _ =>
        { returned := none, store := st, networkCalled := true }
      | HttpOutcome.transportError =>
        { returned := none, store := st, networkCalled := true }
      | HttpOutcome.ok resp =>
        let newRefresh := orTruthy resp.refresh_token td.refresh_token
        let stored := storeToken st now resp.access_token newRefresh
          resp.expires_in envAccountId
        { returned := resp.access_token, store := stored.2, networkCalled := true }

/-- The first guard of `ensure_authenticated`:
`token_data and token_data.get('access_token')`. -/
def hasUsableAccessToken (st : Storage) : Bool :=
  match readTokensBasecamp st with
  | none => false
  | some td => truthyStr td.access_token

/-- The refresh-token guard of `ensure_authenticated`:
a stored credential with a truthy `refresh_token`. -/
def hasRefreshToken (st : Storage) : Bool :=
  match readTokensBasecamp st with
  | none => false
  | some td => truthyStr td.refresh_token

/-- Reading a well-formed token file yields its `basecamp` entry. -/
theorem readTokensBasecamp_data (b : Option Credential) :
    readTokensBasecamp (Storage.data b) = b := rfl

/-- C6: storing with an empty or absent access token returns failure and
leaves the persisted state unchanged. -/
theorem store_empty_access_token_noop (st : Storage) (now : Int)
    (a rt aid : Option String) (ei : Option Int)
    (h : truthyStr a = false) :
    storeToken st now a rt ei aid = (false, st) := by
  simp [storeToken, h]

/-- Witness for C6 at a concrete prior state, for both falsy shapes of the
access token (`None` and the empty string). -/
theorem store_empty_access_token_noop_witness :
    storeToken (Storage.data (some
      { access_token := some "tok", refresh_token := some "r",
        account_id := some "acc", expires_at := some 50, updated_at := some 40 }))
      100 (some "") none (some 3600) none
    = (false, Storage.data (some
      { access_token := some "tok", refresh_token := some "r",
        account_id := some "acc", expires_at := some 50, updated_at := some 40 })) :=
  store_empty_access_token_noop _ 100 (some "") none none (some 3600) (by decide)

/-- C7 (amended): `get_token` returns `None` both when the token file was
never written and when its contents decode as UTF-8 but are not valid JSON,
and the two cases are indistinguishable in its result; but it raises to the
caller when the file exists and cannot be opened (`PermissionError`) or its
bytes are not decodable UTF-8 (`UnicodeDecodeError`), since `_read_tokens`
catches only `FileNotFoundError` and `json.JSONDecodeError`. -/
theorem get_token_read_errors :
    getTokenExc FileState.missing = Except.ok none ∧
    getTokenExc FileState.invalidJson = Except.ok none ∧
    getTokenExc FileState.missing = getTokenExc FileState.invalidJson ∧
    getTokenExc FileState.unreadable =
      Except.error ReadError.permissionError ∧
    getTokenExc FileState.notUtf8 =
      Except.error ReadError.unicodeDecodeError := by
  exact ⟨rfl, rfl, rfl, rfl, rfl⟩

/-- Counterexample to C7 as stated: on a token file whose contents are not
decodable UTF-8 (so in particular not valid JSON), and on one that exists
but cannot be opened, `get_token` raises the uncaught exception to the
caller instead of returning `None`. -/
theorem get_token_raises_counterexample :
    getTokenExc FileState.notUtf8 ≠ Except.ok none ∧
    getTokenExc FileState.notUtf8 =
      Except.error ReadError.unicodeDecodeError ∧
    getTokenExc FileState.unreadable ≠ Except.ok none ∧
    getTokenExc FileState.unreadable =
      Except.error ReadError.permissionError := by
  refine ⟨?_, rfl, ?_, rfl⟩ <;> simp [getTokenExc, readTokensExc]

/-- C9: `clear_tokens` followed by `get_token` yields `None`, clearing twice
leaves exactly the state of clearing once, and clearing the empty state
succeeds and keeps it empty. -/
theorem clear_tokens_idempotent (st : Storage) :
    (clearTokens st).1 = true ∧
    getToken (clearTokens st).2 = none ∧
    clearTokens (clearTokens st).2 = clearTokens st ∧
    clearTokens Storage.absent = (true, Storage.absent) := by
  exact ⟨rfl, rfl, rfl, rfl⟩

/-- C8 (amended): storing with a truthy access token persists a credential
whose `expires_at` is `now + expires_in` when `expires_in` is present and
nonzero, is unset when `expires_in` is absent or zero, and whose
`updated_at` is `now`. -/
theorem store_sets_expiry_and_updated_at (st : Storage) (now : Int)
    (a rt aid : Option String) (ei : Option Int)
    (h : truthyStr a = true) :
    getToken (storeToken st now a rt ei aid).2 = some
      { access_token := a, refresh_token := rt, account_id := aid,
        expires_at := computeExpiresAt now ei, updated_at := some now } ∧
    (∀ n : Int, n ≠ 0 → computeExpiresAt now (some n) = some (now + n)) ∧
    computeExpiresAt now (some 0) = none ∧
    computeExpiresAt now none = none := by
  refine ⟨?_, ?_, rfl, rfl⟩
  · simp [storeToken, h, getToken, readTokensBasecamp]
  · intro n hn
    simp [computeExpiresAt, hn]

/-- Witness for C8 (amended) at a concrete input. -/
theorem store_sets_expiry_and_updated_at_witness :
    getToken (storeToken Storage.absent 100 (some "tok") (some "r") (some 3600)
      (some "acc")).2 = some
      { access_token := some "tok", refresh_token := some "r",
        account_id := some "acc",
        expires_at := computeExpiresAt 100 (some 3600), updated_at := some 100 } ∧
    computeExpiresAt 100 (some 3600) = some 3700 :=
  ⟨(store_sets_expiry_and_updated_at Storage.absent 100 (some "tok") (some "r")
      (some "acc") (some 3600) (by decide)).1, by decide⟩

/-- Counterexample to C8 as stated: providing `expires_in = 0` (a provided
value) persists no `expires_at` at all, where the claim demands
`expires_at = now + 0`.  The Python guard `if expires_in:` treats `0` as
absent. -/
theorem store_zero_expires_in_counterexample :
    Option.bind (getToken (storeToken Storage.absent 100 (some "tok") none
        (some 0) none).2) (fun c => c.expires_at) = none ∧
    (none : Option Int) ≠ some (100 + 0) := by
  exact ⟨rfl, by decide⟩

/-- C3: after storing at time `T` with `expires_in = 3600`,
`is_token_expired` is false at every time strictly before `T + 3300`
(`T + 3600` minus the 5-minute margin) and true at every time strictly
after; and it is true whenever no credential is stored or the stored
credential has no `expires_at`. -/
theorem expiry_margin (st : Storage) (T now t : Int)
    (a rt aid : Option String)
    (h : truthyStr a = true) :
    (t < T + 3300 →
      isTokenExpired (storeToken st T a rt (some 3600) aid).2 t = false) ∧
    (T + 3300 < t →
      isTokenExpired (storeToken st T a rt (some 3600) aid).2 t = true) ∧
    (readTokensBasecamp st = none → isTokenExpired st now = true) ∧
    (∀ td : Credential, readTokensBasecamp st = some td →
      td.expires_at = none → isTokenExpired st now = true) := by
  refine ⟨?_, ?_, ?_, ?_⟩
  · intro ht
    simp only [storeToken, h, Bool.true_eq_false, if_false, isTokenExpired,
      readTokensBasecamp, computeExpiresAt]
    norm_num
    omega
  · intro ht
    simp only [storeToken, h, Bool.true_eq_false, if_false, isTokenExpired,
      readTokensBasecamp, computeExpiresAt]
    norm_num
    omega
  · intro hnone
    simp [isTokenExpired, hnone]
  · intro td hread hexp
    simp [isTokenExpired, hread, hexp]

/-- Witness for C3: storing at `T = 1000` makes the token non-expired at
`t = 4299` and expired at `t = 4301`, and the empty store is expired. -/
theorem expiry_margin_witness :
    isTokenExpired (storeToken Storage.absent 1000 (some "tok") none
      (some 3600) none).2 4299 = false ∧
    isTokenExpired (storeToken Storage.absent 1000 (some "tok") none
      (some 3600) none).2 4301 = true ∧
    isTokenExpired Storage.absent 0 = true :=
  ⟨(expiry_margin Storage.absent 1000 0 4299 (some "tok") none none
      (by decide)).1 (by decide),
   ((expiry_margin Storage.absent 1000 0 4301 (some "tok") none none
      (by decide)).2).1 (by decide),
   ((expiry_margin Storage.absent 1000 0 0 (some "tok") none none
      (by decide)).2).2.1 rfl⟩

/-- C1: refreshing an expired credential whose refresh token is `r`, when
the token-endpoint response omits `refresh_token` but carries a usable
access token, persists a credential whose `refresh_token` is still `r`
while `access_token`, `account_id`, `expires_at` and `updated_at` take the
new values of the store call. -/
theorem refresh_preserves_refresh_token (st : Storage) (now : Int)
    (td : Credential) (r : String) (resp : RefreshResponse)
    (hread : readTokensBasecamp st = some td)
    (hacc : truthyStr td.access_token = true)
    (hexp : isTokenExpired st now = true)
    (hrt : td.refresh_token = some r) (hr : r ≠ "")
    (hnorefresh : resp.refresh_token = none)
    (hnewacc : truthyStr resp.access_token = true) :
    ensureAuthenticated st now true (HttpOutcome.ok resp) =
      { ok := true,
        store := Storage.data (some
          { access_token := resp.access_token, refresh_token := some r,
            account_id := td.account_id,
            expires_at := computeExpiresAt now resp.expires_in,
            updated_at := some now }),
        networkCalled := true } := by
  have hrt' : truthyStr (some r) = true := by
    simp [truthyStr, hr]
  have hnone : truthyStr (none : Option String) = false := rfl
  simp [ensureAuthenticated, hread, hacc, hexp, hrt, hrt', hnorefresh,
    hnewacc, orTruthy, storeToken, hnone]

/-- Witness for C1 at a concrete expired credential and refresh response. -/
theorem refresh_preserves_refresh_token_witness :
    ensureAuthenticated (Storage.data (some
      { access_token := some "old", refresh_token := some "r",
        account_id := some "acc", expires_at := some 0, updated_at := some 0 }))
      1000 true (HttpOutcome.ok
        { access_token := some "new", refresh_token := none,
          expires_in := some 3600 }) =
      { ok := true,
        store := Storage.data (some
          { access_token := some "new", refresh_token := some "r",
            account_id := some "acc",
            expires_at := computeExpiresAt 1000 (some 3600),
            updated_at := some 1000 }),
        networkCalled := true } :=
  refresh_preserves_refresh_token
    (Storage.data (some
      { access_token := some "old", refresh_token := some "r",
        account_id := some "acc", expires_at := some 0, updated_at := some 0 }))
    1000
    { access_token := some "old", refresh_token := some "r",
      account_id := some "acc", expires_at := some 0, updated_at := some 0 }
    "r"
    { access_token := some "new", refresh_token := none,
      expires_in := some 3600 }
    rfl (by decide) (by decide) rfl (by decide) rfl (by decide)

/-- C2: when the stored credential is expired and refreshable but the
token-endpoint call fails (non-200 status, or the request raises), both
refresh orchestrations report failure and leave the persisted state exactly
as it was. -/
theorem failed_refresh_leaves_store (st : Storage) (now : Int)
    (td : Credential) (s : Nat) (b : String) (env : Option String)
    (hread : readTokensBasecamp st = some td)
    (hacc : truthyStr td.access_token = true)
    (hexp : isTokenExpired st now = true)
    (hrt : truthyStr td.refresh_token = true) :
    ensureAuthenticated st now true (HttpOutcome.httpError s b) =
      { ok := false, store := st, networkCalled := true } ∧
    ensureAuthenticated st now true HttpOutcome.transportError =
      { ok := false, store := st, networkCalled := true } ∧
    refreshOauthToken st now env (HttpOutcome.httpError s b) =
      { returned := none, store := st, networkCalled := true } ∧
    refreshOauthToken st now env HttpOutcome.transportError =
      { returned := none, store := st, networkCalled := true } := by
  refine ⟨?_, ?_, ?_, ?_⟩ <;>
    simp [ensureAuthenticated, refreshOauthToken, hread, hacc, hexp, hrt]

/-- Witness for C2 at a concrete expired, refreshable stored credential and
an HTTP 401 from the token endpoint. -/
theorem failed_refresh_leaves_store_witness :
    ensureAuthenticated (Storage.data (some
      { access_token := some "old", refresh_token := some "r",
        account_id := some "acc", expires_at := some 0, updated_at := some 0 }))
      1000 true (HttpOutcome.httpError 401 "unauthorized") =
      { ok := false,
        store := Storage.data (some
          { access_token := some "old", refresh_token := some "r",
            account_id := some "acc", expires_at := some 0,
            updated_at := some 0 }),
        networkCalled := true } :=
  (failed_refresh_leaves_store
    (Storage.data (some
      { access_token := some "old", refresh_token := some "r",
        account_id := some "acc", expires_at := some 0, updated_at := some 0 }))
    1000
    { access_token := some "old", refresh_token := some "r",
      account_id := some "acc", expires_at := some 0, updated_at := some 0 }
    401 "unauthorized" none rfl (by decide) (by decide) (by decide)).1

/-- C10: when the token-endpoint call succeeds but its body carries no
access token, `ensure_authenticated` still returns `True` even though
`store_token` rejects the empty token and the persisted credential remains
the old, expired one. -/
theorem refresh_empty_access_reports_success (st : Storage) (now : Int)
    (td : Credential) (resp : RefreshResponse)
    (hread : readTokensBasecamp st = some td)
    (hacc : truthyStr td.access_token = true)
    (hexp : isTokenExpired st now = true)
    (hrt : truthyStr td.refresh_token = true)
    (hempty : truthyStr resp.access_token = false) :
    ensureAuthenticated st now true (HttpOutcome.ok resp) =
      { ok := true, store := st, networkCalled := true } := by
  simp [ensureAuthenticated, hread, hacc, hexp, hrt, storeToken, hempty]

/-- Witness for C10: a 200 response whose body lacks `access_token` yields
success while the old expired credential stays stored. -/
theorem refresh_empty_access_reports_success_witness :
    ensureAuthenticated (Storage.data (some
      { access_token := some "old", refresh_token := some "r",
        account_id := some "acc", expires_at := some 0, updated_at := some 0 }))
      1000 true (HttpOutcome.ok
        { access_token := none, refresh_token := none, expires_in := some 3600 }) =
      { ok := true,
        store := Storage.data (some
          { access_token := some "old", refresh_token := some "r",
            account_id := some "acc", expires_at := some 0,
            updated_at := some 0 }),
        networkCalled := true } :=
  refresh_empty_access_reports_success
    (Storage.data (some
      { access_token := some "old", refresh_token := some "r",
        account_id := some "acc", expires_at := some 0, updated_at := some 0 }))
    1000
    { access_token := some "old", refresh_token := some "r",
      account_id := some "acc", expires_at := some 0, updated_at := some 0 }
    { access_token := none, refresh_token := none, expires_in := some 3600 }
    rfl (by decide) (by decide) (by decide) (by decide)

/-- C4 (amended): `ensure_authenticated` issues the network refresh request
if and only if the stored credential is present with a truthy access token,
is locally expired, has a truthy refresh token, AND the OAuth client
configuration is available (`BasecampOAuth()` raises before any network
traffic otherwise); absent/empty credentials and expired credentials
without a refresh token fail with no network call and no state change, a
valid credential succeeds with no network call and no state change (so
the stored access token is returned unchanged by a subsequent `get`), and
an expired refreshable credential with the configuration missing fails
with no network call and no state change. -/
theorem supplier_network_iff (st : Storage) (now : Int) (configOk : Bool)
    (exch : HttpOutcome) :
    ((ensureAuthenticated st now configOk exch).networkCalled = true ↔
      (hasUsableAccessToken st = true ∧ isTokenExpired st now = true ∧
        hasRefreshToken st = true ∧ configOk = true)) ∧
    (hasUsableAccessToken st = false →
      ensureAuthenticated st now configOk exch =
        { ok := false, store := st, networkCalled := false }) ∧
    (hasUsableAccessToken st = true → isTokenExpired st now = true →
      hasRefreshToken st = false →
      ensureAuthenticated st now configOk exch =
        { ok := false, store := st, networkCalled := false }) ∧
    (hasUsableAccessToken st = true → isTokenExpired st now = false →
      ensureAuthenticated st now configOk exch =
        { ok := true, store := st, networkCalled := false }) ∧
    (hasUsableAccessToken st = true → isTokenExpired st now = true →
      hasRefreshToken st = true → configOk = false →
      ensureAuthenticated st now configOk exch =
        { ok := false, store := st, networkCalled := false }) := by
  cases hread : readTokensBasecamp st with
  | none =>
    simp [ensureAuthenticated, hasUsableAccessToken, hasRefreshToken, hread]
  | some td =>
    simp only [ensureAuthenticated, hasUsableAccessToken, hasRefreshToken,
      hread]
    cases hacc : truthyStr td.access_token with
    | false => simp
    | true =>
      cases hexp : isTokenExpired st now with
      | false => simp
      | true =>
        cases hrt : truthyStr td.refresh_token with
        | false => simp
        | true =>
          cases configOk with
          | false => simp
          | true => cases exch <;> simp

/-- Witness for C4 (amended): a present, non-expired credential yields
success with no network call. -/
theorem supplier_network_iff_witness :
    ensureAuthenticated (Storage.data (some
      { access_token := some "tok", refresh_token := some "r",
        account_id := some "acc", expires_at := some 10000,
        updated_at := some 0 })) 0 true HttpOutcome.transportError =
      { ok := true,
        store := Storage.data (some
          { access_token := some "tok", refresh_token := some "r",
            account_id := some "acc", expires_at := some 10000,
            updated_at := some 0 }),
        networkCalled := false } :=
  (supplier_network_iff (Storage.data (some
      { access_token := some "tok", refresh_token := some "r",
        account_id := some "acc", expires_at := some 10000,
        updated_at := some 0 })) 0 true
    HttpOutcome.transportError).2.2.2.1 (by decide) (by decide)

/-- Counterexample to C4 as stated: a stored credential that is present,
expired and refreshable, yet no network call is issued because the OAuth
client configuration is missing (`BasecampOAuth()` raises `ValueError`
inside the try block before `requests.post`). -/
theorem supplier_network_iff_counterexample :
    hasUsableAccessToken (Storage.data (some
      { access_token := some "tok", refresh_token := some "r",
        account_id := none, expires_at := some 0, updated_at := none })) =
      true ∧
    isTokenExpired (Storage.data (some
      { access_token := some "tok", refresh_token := some "r",
        account_id := none, expires_at := some 0, updated_at := none }))
      1000 = true ∧
    hasRefreshToken (Storage.data (some
      { access_token := some "tok", refresh_token := some "r",
        account_id := none, expires_at := some 0, updated_at := none })) =
      true ∧
    (ensureAuthenticated (Storage.data (some
      { access_token := some "tok", refresh_token := some "r",
        account_id := none, expires_at := some 0, updated_at := none }))
      1000 false (HttpOutcome.ok
        { access_token := some "new", refresh_token := none,
          expires_in := some 3600 })).networkCalled = false ∧
    ensureAuthenticated (Storage.data (some
      { access_token := some "tok", refresh_token := some "r",
        account_id := none, expires_at := some 0, updated_at := none }))
      1000 false (HttpOutcome.ok
        { access_token := some "new", refresh_token := none,
          expires_in := some 3600 }) =
      { ok := false,
        store := Storage.data (some
          { access_token := some "tok", refresh_token := some "r",
            account_id := none, expires_at := some 0, updated_at := none }),
        networkCalled := false } := by
  decide

/-- C5 (amended): on a successful refresh, `ensure_authenticated` persists
the previously stored `account_id` unchanged, while
`mcp_server.refresh_oauth_token` instead persists the `BASECAMP_ACCOUNT_ID`
environment value, whatever was stored before. -/
theorem refresh_account_id_flow (st : Storage) (now : Int) (td : Credential)
    (resp : RefreshResponse) (env : Option String)
    (hread : readTokensBasecamp st = some td)
    (hacc : truthyStr td.access_token = true)
    (hexp : isTokenExpired st now = true)
    (hrt : truthyStr td.refresh_token = true)
    (hnewacc : truthyStr resp.access_token = true) :
    Option.bind (getToken (ensureAuthenticated st now true
      (HttpOutcome.ok resp)).store) (fun c => c.account_id) = td.account_id ∧
    Option.bind (getToken (refreshOauthToken st now env
      (HttpOutcome.ok resp)).store) (fun c => c.account_id) = env := by
  constructor <;>
    simp [ensureAuthenticated, refreshOauthToken, hread, hacc, hexp, hrt,
      storeToken, hnewacc, getToken, readTokensBasecamp_data]

/-- Witness for C5 (amended) at a concrete expired credential. -/
theorem refresh_account_id_flow_witness :
    Option.bind (getToken (ensureAuthenticated (Storage.data (some
      { access_token := some "old", refresh_token := some "r",
        account_id := some "A", expires_at := some 0, updated_at := some 0 }))
      1000 true (HttpOutcome.ok
        { access_token := some "new", refresh_token := none,
          expires_in := some 3600 })).store) (fun c => c.account_id) =
      some "A" :=
  (refresh_account_id_flow (Storage.data (some
      { access_token := some "old", refresh_token := some "r",
        account_id := some "A", expires_at := some 0, updated_at := some 0 }))
    1000
    { access_token := some "old", refresh_token := some "r",
      account_id := some "A", expires_at := some 0, updated_at := some 0 }
    { access_token := some "new", refresh_token := none,
      expires_in := some 3600 }
    none rfl (by decide) (by decide) (by decide) (by decide)).1

/-- Counterexample to C5 as stated: a credential stored with account id
`"A"`, refreshed through `mcp_server.refresh_oauth_token` while
`BASECAMP_ACCOUNT_ID` is unset, is persisted with no account id instead of
the previously stored one. -/
theorem refresh_account_id_counterexample :
    Option.bind (getToken (Storage.data (some
      { access_token := some "old", refresh_token := some "r",
        account_id := some "A", expires_at := some 0, updated_at := some 0 })))
      (fun c => c.account_id) = some "A" ∧
    Option.bind (getToken (refreshOauthToken (Storage.data (some
      { access_token := some "old", refresh_token := some "r",
        account_id := some "A", expires_at := some 0, updated_at := some 0 }))
      1000 none (HttpOutcome.ok
        { access_token := some "new", refresh_token := none,
          expires_in := some 3600 })).store) (fun c => c.account_id) ≠
      some "A" := by
  decide

end BasecampMCP
